import Mathlib

/-!
Shallow embedding of the SMART-on-FHIR cholesterol lab dashboard script.
The script's DOM writes are modelled as structured render values, the FHIR
client and the Highcharts library as the data the script hands to them.
Functions keep the source names where Lean allows it.
-/

/-- JS truthiness for an optional string: an absent field and the empty
string are falsy, every other string is truthy. -/
def truthyStr : Option String → Bool
  | none => false
  | some s => !(s == "")

/-- JS `a || b` where `a` is an optional string field and `b` a string
default: a present non-empty string wins, otherwise the default. -/
def jsOr (a : Option String) (b : String) : String :=
  match a with
  | some s => if s == "" then b else s
  | none => b

/-- JS `s.trim()`: drop whitespace from both ends. -/
def strTrim (s : String) : String :=
  String.mk (((s.data.dropWhile Char.isWhitespace).reverse.dropWhile Char.isWhitespace).reverse)

/-- JS `s.substring(0, 10)`: the first min(10, length) characters. -/
def strTake10 (s : String) : String :=
  String.mk (s.data.take 10)

/-- Does the character list `pat` occur at the start of `s`? -/
def listStartsWith : List Char → List Char → Bool
  | [], _ => true
  | _ :: _, [] => false
  | a :: pat, b :: s => a == b && listStartsWith pat s

/-- Does the character list `pat` occur contiguously anywhere in `s`?
Models JS `String.prototype.includes`. -/
def listContainsSub (pat : List Char) : List Char → Bool
  | [] => listStartsWith pat []
  | b :: s => listStartsWith pat (b :: s) || listContainsSub pat s

/-- JS `s.includes(pat)`. -/
def strContains (s pat : String) : Bool :=
  listContainsSub pat.data s.data

/-- A launch failure as the catch handler sees it: its string
representation (what `String(error)` yields) and its optional `message`
field (`none` models an absent field; `some ""` an empty one). -/
structure LaunchError where
  str : String
  message : Option String
deriving DecidableEq

/-- The substring the catch handler looks for in the failure's string
representation: the missing-launch-parameter phrase. -/
def missingStatePhrase : String := "No \x27state\x27 parameter"

/-- Hardcoded dev-mode server address. -/
def DEV_SERVER_URL : String := "https://r3.smarthealthit.org"

/-- Hardcoded dev-mode patient identifier. -/
def DEV_PATIENT_ID : String := "smart-1288992"

/-- A resolved session as the loaders receive it: the client's server
address plus the explicit patient identifier passed alongside it. -/
structure Session where
  serverUrl : String
  patientId : Option String
deriving DecidableEq

/-- An invocation of one of the two loaders with a resolved session. -/
inductive LoaderCall where
  | patient (session : Session)
  | labs (session : Session)
deriving DecidableEq

/-- What the catch handler does: the status text it writes and the loader
invocations it makes, in order. -/
structure CatchResult where
  status : String
  calls : List LoaderCall
deriving DecidableEq

/-- The fallback session the catch handler builds in dev mode:
`FHIR.client(DEV_SERVER_URL)` plus the explicit `DEV_PATIENT_ID` passed
to both loaders. -/
def devSession : Session :=
  { serverUrl := DEV_SERVER_URL, patientId := some DEV_PATIENT_ID }

/-- Embeds the catch handler of `FHIR.oauth2.ready()`: when the failure's
string representation contains the missing-state phrase, set the dev-mode
status and invoke both loaders with the fallback session; otherwise set a
terminal launch-error status built from `error.message || error` and
invoke nothing. -/
def handleLaunchFailure (err : LaunchError) : CatchResult :=
  if strContains err.str missingStatePhrase then
    { status := "No SMART launch detected – using sandbox dev mode with a test patient."
    , calls := [LoaderCall.patient devSession, LoaderCall.labs devSession] }
  else
    { status := "Launch error: " ++ jsOr err.message err.str
    , calls := [] }

/-- A FHIR HumanName as the script reads it: an optional list of given
name parts and an optional family name. -/
structure HumanName where
  given : Option (List String)
  family : Option String
deriving DecidableEq

/-- Embeds `formatHumanName`: join the given parts with spaces, append a
space and the family name, trim; an empty result, or no name at all,
renders the fixed marker. -/
def formatHumanName (name : Option HumanName) : String :=
  match name with
  | none => "(no name)"
  | some n =>
    let given := String.intercalate " " (n.given.getD [])
    let family := jsOr n.family ""
    let full := strTrim (given ++ " " ++ family)
    if full == "" then "(no name)" else full

/-- The rendered-name computation as the specification words it: join all
given-name parts with single spaces, append the family name, trim; if the
result is empty, or no name is present at all, render "(no name)". -/
def specRenderedName (name : Option HumanName) : String :=
  match name with
  | none => "(no name)"
  | some n =>
    let joined := String.intercalate " " (n.given.getD [])
    let appended := strTrim (joined ++ " " ++ n.family.getD "")
    if appended == "" then "(no name)" else appended

/-- The value carried by a `valueQuantity.value` field when present: JS
distinguishes only its `typeof`, so the model keeps a numeric payload
(rationals standing in for JS numbers) or a non-numeric one. -/
inductive QtyValue where
  | num (q : Rat)
  | str (s : String)
deriving DecidableEq

/-- The `valueQuantity` sub-object of an observation. -/
structure ValueQuantity where
  value : Option QtyValue
  unit : Option String
  code : Option String
deriving DecidableEq

/-- A FHIR Observation as the script reads it. -/
structure Observation where
  effectiveDateTime : Option String
  issued : Option String
  valueQuantity : Option ValueQuantity
  status : Option String
deriving DecidableEq

/-- Embeds `getObservationDate`: prefer a truthy `effectiveDateTime`
truncated to ten characters, else a truthy `issued` truncated likewise,
else the empty string. -/
def getObservationDate (obs : Observation) : String :=
  if truthyStr obs.effectiveDateTime then strTake10 (obs.effectiveDateTime.getD "")
  else if truthyStr obs.issued then strTake10 (obs.issued.getD "")
  else ""

/-- JS `obs.valueQuantity || {}`. -/
def obsVQ (obs : Observation) : ValueQuantity :=
  obs.valueQuantity.getD { value := none, unit := none, code := none }

/-- How a value renders into the table's value cell:
`value != null ? value : ""`. -/
def showVal : Option QtyValue → String
  | none => ""
  | some (QtyValue.num q) => toString q
  | some (QtyValue.str s) => s

/-- One rendered data row of the lab table: the four cell texts. -/
structure TableRow where
  date : String
  value : String
  unit : String
  status : String
deriving DecidableEq

/-- The table row built for one observation inside the forEach loop. -/
def mkRow (obs : Observation) : TableRow :=
  { date := getObservationDate obs
  , value := showVal (obsVQ obs).value
  , unit := jsOr (obsVQ obs).unit (jsOr (obsVQ obs).code "")
  , status := jsOr obs.status "" }

/-- The chart contribution of one observation: the (date, value) pair
pushed when `date && typeof value === "number"`, else nothing. -/
def chartPair (obs : Observation) : Option (String × Rat) :=
  match (obsVQ obs).value with
  | some (QtyValue.num q) =>
      if getObservationDate obs ≠ "" then some (getObservationDate obs, q) else none
  | _ => none

/-- Is the optional value present with a strictly numeric underlying
type, i.e. does `typeof value === "number"` hold? -/
def isNumeric : Option QtyValue → Bool
  | some (QtyValue.num _) => true
  | _ => false

/-- The chart-inclusion test of the source filter: a non-empty extracted
date and a strictly numeric value. -/
def chartEligible (obs : Observation) : Bool :=
  decide (getObservationDate obs ≠ "") && isNumeric (obsVQ obs).value

/-- A row of the rendered table body: either a data row or a placeholder
cell spanning several columns. -/
inductive RenderedRow where
  | data (r : TableRow)
  | placeholder (colspan : Nat) (text : String)
deriving DecidableEq

/-- One Highcharts series: its name and its data points. -/
structure ChartSeries where
  name : String
  data : List Rat
deriving DecidableEq

/-- The chart description handed to `Highcharts.chart`: title, x-axis
category labels and series. -/
structure ChartSpec where
  title : String
  categories : List String
  series : List ChartSeries
deriving DecidableEq

/-- Embeds `renderChart`: an empty dates or values array yields the
placeholder chart with no series; otherwise one line series over the date
categories. -/
def renderChart (dates : List String) (values : List Rat) : ChartSpec :=
  if dates.isEmpty || values.isEmpty then
    { title := "No data to display", categories := [], series := [] }
  else
    { title := "Total Cholesterol Over Time"
    , categories := dates
    , series := [{ name := "Total Cholesterol", data := values }] }

/-- Total number of data points across all series of a chart. -/
def chartPointCount (c : ChartSpec) : Nat :=
  (c.series.map (fun s => s.data.length)).sum

/-- What the lab loader's success callback renders: the status note it
appends (if any), the table body rows, and the chart description. -/
structure LabView where
  statusNote : Option String
  rows : List RenderedRow
  chart : ChartSpec
deriving DecidableEq

/-- The rendering of the empty-result branch: the no-results status note,
one placeholder row spanning the four columns, and the empty chart. -/
def emptyLabView : LabView :=
  { statusNote := some " • No cholesterol results found for this patient."
  , rows := [RenderedRow.placeholder 4 "No cholesterol results."]
  , chart := renderChart [] [] }

/-- One iteration of the forEach loop over observations: push the chart
pair when eligible, always append exactly one table row. The accumulator
is (dates, values, rows). -/
def labStep (acc : List String × List Rat × List TableRow) (obs : Observation) :
    List String × List Rat × List TableRow :=
  match chartPair obs with
  | some dv => (acc.1 ++ [dv.1], acc.2.1 ++ [dv.2], acc.2.2 ++ [mkRow obs])
  | none => (acc.1, acc.2.1, acc.2.2 ++ [mkRow obs])

/-- The forEach loop run over the whole observation list, starting from
empty dates, values and rows. -/
def labAccum (l : List Observation) : List String × List Rat × List TableRow :=
  l.foldl labStep ([], [], [])

/-- Embeds the success callback of `loadCholesterolLabs`: `none` models a
null/undefined result, otherwise an empty list takes the empty-result
branch and a non-empty list is tabulated and charted. -/
def labsOnSuccess (observations : Option (List Observation)) : LabView :=
  match observations with
  | none => emptyLabView
  | some l =>
    if l.isEmpty then emptyLabView
    else
      { statusNote := none
      , rows := (labAccum l).2.2.map RenderedRow.data
      , chart := renderChart (labAccum l).1 (labAccum l).2.1 }

/-! ### Helper lemmas -/

theorem jsOr_empty_default (a : Option String) : jsOr a "" = a.getD "" := by
  cases a with
  | none => rfl
  | some s =>
    simp only [jsOr, Option.getD_some]
    split <;> simp_all

theorem foldl_labStep_eq (l : List Observation) :
    ∀ ds vs rs, l.foldl labStep (ds, vs, rs) =
      (ds ++ (l.filterMap chartPair).map Prod.fst,
       vs ++ (l.filterMap chartPair).map Prod.snd,
       rs ++ l.map mkRow) := by
  induction l with
  | nil => intro ds vs rs; simp
  | cons a t ih =>
    intro ds vs rs
    simp only [List.foldl_cons, List.filterMap_cons, List.map_cons]
    cases h : chartPair a with
    | none =>
      simp only [labStep, h]
      rw [ih]
      simp [List.append_assoc]
    | some dv =>
      simp only [labStep, h, List.map_cons]
      rw [ih]
      simp [List.append_assoc]

theorem labAccum_eq (l : List Observation) :
    labAccum l = ((l.filterMap chartPair).map Prod.fst,
                  (l.filterMap chartPair).map Prod.snd,
                  l.map mkRow) := by
  have h := foldl_labStep_eq l [] [] []
  simpa [labAccum] using h

theorem length_filterMap_eq_countP {α β : Type} (f : α → Option β) (l : List α) :
    (l.filterMap f).length = l.countP (fun a => (f a).isSome) := by
  induction l with
  | nil => rfl
  | cons a t ih =>
    cases h : f a <;> simp [List.filterMap_cons, h, List.countP_cons, ih]

theorem chartPair_isSome (obs : Observation) :
    (chartPair obs).isSome = chartEligible obs := by
  simp only [chartPair, chartEligible]
  cases h : (obsVQ obs).value with
  | none => simp [isNumeric]
  | some v =>
    cases v with
    | num q =>
      simp only [isNumeric, Bool.and_true]
      split <;> simp_all
    | str s => simp [isNumeric]

theorem labsOnSuccess_nonempty (l : List Observation) (h : l ≠ []) :
    labsOnSuccess (some l) =
      { statusNote := none
      , rows := (l.map mkRow).map RenderedRow.data
      , chart := renderChart ((l.filterMap chartPair).map Prod.fst)
                             ((l.filterMap chartPair).map Prod.snd) } := by
  cases l with
  | nil => exact absurd rfl h
  | cons a t =>
    simp only [labsOnSuccess, List.isEmpty_cons, labAccum_eq]
    rfl

theorem chartPointCount_renderChart (dates : List String) (values : List Rat) :
    chartPointCount (renderChart dates values) =
      if dates.isEmpty || values.isEmpty then 0 else values.length := by
  simp only [renderChart]
  split <;> simp [chartPointCount]

theorem labs_chartPointCount (l : List Observation) :
    chartPointCount (labsOnSuccess (some l)).chart = l.countP chartEligible := by
  have hcount : l.countP chartEligible = (l.filterMap chartPair).length := by
    rw [length_filterMap_eq_countP]
    apply List.countP_congr
    intro a _
    rw [chartPair_isSome]
  cases l with
  | nil => simp [labsOnSuccess, emptyLabView, renderChart, chartPointCount]
  | cons a t =>
    rw [labsOnSuccess_nonempty (a :: t) (by simp)]
    rw [chartPointCount_renderChart, hcount]
    cases hfm : (a :: t).filterMap chartPair with
    | nil => simp
    | cons p ps => simp

/-! ### Claim theorems -/

/-- C1: whenever session establishment fails and the failure's string
representation contains the missing-launch-parameter phrase, the catch
handler resolves the fallback session bound to server
"https://r3.smarthealthit.org" with patient identifier "smart-1288992"
and invokes both the patient loader and the lab series loader with it. -/
theorem fallback_session_and_loader_calls (err : LaunchError)
    (h : strContains err.str missingStatePhrase = true) :
    devSession.serverUrl = "https://r3.smarthealthit.org"
  ∧ devSession.patientId = some "smart-1288992"
  ∧ handleLaunchFailure err =
      { status := "No SMART launch detected – using sandbox dev mode with a test patient."
      , calls := [LoaderCall.patient devSession, LoaderCall.labs devSession] } := by
  refine ⟨rfl, rfl, ?_⟩
  simp [handleLaunchFailure, h]

theorem fallback_session_and_loader_calls_witness :
    handleLaunchFailure
      { str := "Error: No \x27state\x27 parameter found. It is normally included in the launch URL"
      , message := none } =
      { status := "No SMART launch detected – using sandbox dev mode with a test patient."
      , calls := [LoaderCall.patient devSession, LoaderCall.labs devSession] } :=
  (fallback_session_and_loader_calls _ (by decide)).2.2

/-- C7: whenever session establishment fails and the failure's string
representation does not contain the missing-launch-parameter phrase, the
catch handler writes a launch-error status built from the failure's
message (or its string representation when no message is present) and
invokes neither loader. -/
theorem other_failure_terminal (err : LaunchError)
    (h : strContains err.str missingStatePhrase = false) :
    (handleLaunchFailure err).calls = []
  ∧ (∀ m : String, err.message = some m → m ≠ "" →
      (handleLaunchFailure err).status = "Launch error: " ++ m)
  ∧ (err.message = none →
      (handleLaunchFailure err).status = "Launch error: " ++ err.str) := by
  refine ⟨?_, ?_, ?_⟩
  · simp [handleLaunchFailure, h]
  · intro m hm hne
    simp [handleLaunchFailure, h, hm, jsOr, hne]
  · intro hm
    simp [handleLaunchFailure, h, hm, jsOr]

theorem other_failure_terminal_witness :
    (handleLaunchFailure { str := "Launch failed: invalid scope", message := none }).calls = []
  ∧ (handleLaunchFailure { str := "Launch failed: invalid scope", message := none }).status =
      "Launch error: " ++ "Launch failed: invalid scope" :=
  ⟨(other_failure_terminal _ (by decide)).1,
   (other_failure_terminal _ (by decide)).2.2 rfl⟩

/-- C2: for every non-empty fetched observation list, the success path
renders one table row per observation and at most that many chart
points. -/
theorem table_rows_eq_count_chart_le (l : List Observation) (h : l ≠ []) :
    (labsOnSuccess (some l)).rows.length = l.length
  ∧ chartPointCount (labsOnSuccess (some l)).chart ≤ (labsOnSuccess (some l)).rows.length := by
  have hrows : (labsOnSuccess (some l)).rows.length = l.length := by
    rw [labsOnSuccess_nonempty l h]
    simp
  refine ⟨hrows, ?_⟩
  rw [hrows, labs_chartPointCount]
  exact List.countP_le_length _

theorem table_rows_eq_count_chart_le_witness :
    (labsOnSuccess (some [{ effectiveDateTime := none, issued := none
                          , valueQuantity := none, status := none }])).rows.length = 1 :=
  (table_rows_eq_count_chart_le
    [{ effectiveDateTime := none, issued := none, valueQuantity := none, status := none }]
    (by decide)).1

/-- C3: for every fetched observation list, the number of chart points
equals the number of observations with a non-empty extracted date and a
strictly numeric value; the rest contribute no chart point. -/
theorem chart_points_eq_eligible_count (l : List Observation) :
    chartPointCount (labsOnSuccess (some l)).chart = l.countP chartEligible :=
  labs_chartPointCount l

/-- C4: an observation carrying a coded (non-numeric) value yields
exactly one table row whose value cell shows that raw value, and
contributes no chart point. -/
theorem coded_value_row_no_chart_point (obs : Observation) (s : String)
    (h : (obsVQ obs).value = some (QtyValue.str s)) :
    (mkRow obs).value = s
  ∧ chartPair obs = none
  ∧ (labsOnSuccess (some [obs])).rows = [RenderedRow.data (mkRow obs)]
  ∧ chartPointCount (labsOnSuccess (some [obs])).chart = 0 := by
  have hpair : chartPair obs = none := by simp [chartPair, h]
  refine ⟨?_, hpair, ?_, ?_⟩
  · simp [mkRow, h, showVal]
  · rw [labsOnSuccess_nonempty [obs] (by simp)]
    simp
  · rw [labs_chartPointCount]
    simp [List.countP_cons, chartEligible, isNumeric, h]

theorem coded_value_row_no_chart_point_witness :
    (mkRow { effectiveDateTime := some "2020-05-01T10:00:00Z", issued := none
           , valueQuantity := some { value := some (QtyValue.str "HIGH"), unit := none, code := none }
           , status := none }).value = "HIGH"
  ∧ chartPair { effectiveDateTime := some "2020-05-01T10:00:00Z", issued := none
              , valueQuantity := some { value := some (QtyValue.str "HIGH"), unit := none, code := none }
              , status := none } = none :=
  ⟨(coded_value_row_no_chart_point _ "HIGH" (by decide)).1,
   (coded_value_row_no_chart_point _ "HIGH" (by decide)).2.1⟩

/-- C5: the rendered patient name matches the specification formula
(join given parts with spaces, append family, trim, fall back to the
fixed marker when empty or missing), and the concrete examples hold. -/
theorem rendered_name_spec :
    (∀ name : Option HumanName, formatHumanName name = specRenderedName name)
  ∧ formatHumanName (some { given := some ["Jane", "Q"], family := some "Doe" }) = "Jane Q Doe"
  ∧ formatHumanName none = "(no name)" := by
  refine ⟨?_, by decide, rfl⟩
  intro name
  cases name with
  | none => rfl
  | some n => simp [formatHumanName, specRenderedName, jsOr_empty_default]

/-- C6: the extracted observation date is the effective timestamp
truncated to ten characters when one is present (non-empty), else the
issued timestamp truncated likewise, else empty; with the three concrete
examples of the specification. -/
theorem observation_date_cases :
    (∀ (obs : Observation) (s : String), obs.effectiveDateTime = some s → s ≠ "" →
      getObservationDate obs = strTake10 s)
  ∧ (∀ (obs : Observation) (t : String),
      (obs.effectiveDateTime = none ∨ obs.effectiveDateTime = some "") →
      obs.issued = some t → t ≠ "" → getObservationDate obs = strTake10 t)
  ∧ (∀ obs : Observation,
      (obs.effectiveDateTime = none ∨ obs.effectiveDateTime = some "") →
      (obs.issued = none ∨ obs.issued = some "") → getObservationDate obs = "")
  ∧ getObservationDate { effectiveDateTime := some "2020-05-01T10:00:00Z", issued := none
                       , valueQuantity := none, status := none } = "2020-05-01"
  ∧ getObservationDate { effectiveDateTime := none, issued := some "2019-01-15T00:00:00Z"
                       , valueQuantity := none, status := none } = "2019-01-15"
  ∧ getObservationDate { effectiveDateTime := none, issued := none
                       , valueQuantity := none, status := none } = "" := by
  refine ⟨?_, ?_, ?_, by decide, by decide, rfl⟩
  · intro obs s hs hne
    simp [getObservationDate, truthyStr, hs, hne]
  · intro obs t heff ht hne
    rcases heff with h1 | h1 <;>
      simp [getObservationDate, truthyStr, h1, ht, hne]
  · intro obs heff hiss
    rcases heff with h1 | h1 <;> rcases hiss with h2 | h2 <;>
      simp [getObservationDate, truthyStr, h1, h2]

theorem observation_date_cases_witness :
    getObservationDate { effectiveDateTime := none, issued := some "2019-01-15T00:00:00Z"
                       , valueQuantity := none, status := none } =
      strTake10 "2019-01-15T00:00:00Z" :=
  observation_date_cases.2.1 _ "2019-01-15T00:00:00Z" (Or.inl rfl) rfl (by decide)

/-- C8: an absent or empty observation result renders the no-results
status note, one placeholder row spanning the four columns with the
no-results text, and the placeholder chart with no series. -/
theorem empty_results_placeholder (o : Option (List Observation))
    (h : o = none ∨ o = some []) :
    labsOnSuccess o =
      { statusNote := some " • No cholesterol results found for this patient."
      , rows := [RenderedRow.placeholder 4 "No cholesterol results."]
      , chart := { title := "No data to display", categories := [], series := [] } } := by
  rcases h with h | h <;> subst h <;> rfl

theorem empty_results_placeholder_witness :
    labsOnSuccess (some []) =
      { statusNote := some " • No cholesterol results found for this patient."
      , rows := [RenderedRow.placeholder 4 "No cholesterol results."]
      , chart := { title := "No data to display", categories := [], series := [] } } :=
  empty_results_placeholder (some []) (Or.inr rfl)

/-- C9: the dates and values lists accumulated by the loop always have
equal length, so every chart series is aligned one-to-one with the
x-axis category labels. -/
theorem dates_values_aligned :
    (∀ l : List Observation, (labAccum l).1.length = (labAccum l).2.1.length)
  ∧ (∀ (l : List Observation) (s : ChartSeries),
      s ∈ (labsOnSuccess (some l)).chart.series →
      (labsOnSuccess (some l)).chart.categories.length = s.data.length) := by
  constructor
  · intro l
    rw [labAccum_eq]
    simp
  · intro l s hs
    cases l with
    | nil =>
      simp [labsOnSuccess, emptyLabView, renderChart] at hs
    | cons a t =>
      rw [labsOnSuccess_nonempty (a :: t) (by simp)] at hs ⊢
      simp only [renderChart] at hs ⊢
      split at hs
      · simp at hs
      · next hemp =>
        rw [if_neg hemp]
        simp only [List.mem_singleton] at hs
        subst hs
        simp

theorem dates_values_aligned_witness :
    (labsOnSuccess (some [{ effectiveDateTime := some "2020-05-01T10:00:00Z", issued := none
                          , valueQuantity := some { value := some (QtyValue.num 200)
                                                  , unit := none, code := none }
                          , status := none }])).chart.categories.length =
      (ChartSeries.mk "Total Cholesterol" [(200 : Rat)]).data.length :=
  dates_values_aligned.2 _ _ (by decide)

/-- C10: the date extraction is total and truncates the chosen timestamp
to its first min(10, length) characters, returning a timestamp shorter
than ten characters whole. -/
theorem observation_date_take10 :
    (∀ s : String, (strTake10 s).length = min 10 s.length)
  ∧ (∀ s : String, s.length ≤ 10 → strTake10 s = s)
  ∧ (∀ (obs : Observation) (s : String), obs.effectiveDateTime = some s → s ≠ "" →
      getObservationDate obs = strTake10 s)
  ∧ getObservationDate { effectiveDateTime := some "2020", issued := none
                       , valueQuantity := none, status := none } = "2020"
  ∧ getObservationDate { effectiveDateTime := none, issued := some "2020-05"
                       , valueQuantity := none, status := none } = "2020-05" := by
  refine ⟨?_, ?_, ?_, by decide, by decide⟩
  · intro s
    have h : (strTake10 s).length = (s.data.take 10).length := rfl
    rw [h, List.length_take]
    rfl
  · intro s hs
    have h : strTake10 s = String.mk (s.data.take 10) := rfl
    rw [h, List.take_of_length_le hs]
  · intro obs s hs hne
    simp [getObservationDate, truthyStr, hs, hne]

theorem observation_date_take10_witness :
    getObservationDate { effectiveDateTime := some "2020", issued := none
                       , valueQuantity := none, status := none } = strTake10 "2020" :=
  observation_date_take10.2.2.1 _ "2020" rfl (by decide)
